import Mathlib

/-!
Verification of the loop execution engine of `bentossell/loop-slack`
(`src/loop.ts`, with the loop store `db.ts` and the GitHub client).

The engine drives a bounded sequence of external agent invocations,
classifying each iteration's combined output text and persisting a
state machine in the loop store.  We embed:

* the output classification (substring search for the completion
  sentinels, leftmost match of the pull-request URL pattern
  `https://github.com/[^/]+/[^/]+/pull/(\d+)` and of the issue token
  `#(\d+)`);
* `runIteration`'s success rule (exit code zero, or the buffer
  contains the marker `<done>`);
* the iteration driver `startLoop` as a fueled recursion over an
  environment supplying, per iteration, the external process outcome
  and an optional externally applied status change observed at the
  iteration boundary (modelling concurrent stop/approve/skip);
* `stopLoopProcess`, `approveAndContinue` and `skipAndContinue` over a
  system state holding the persisted loop row and the live-process
  registry entry for the loop's identifier.

Timestamps (`started_at`, `completed_at`) and the append-only log are
not modelled; no claim mentions them.
-/

namespace LoopSlack

/-- `status` column of the `loops` table (`db.ts`). -/
inductive LoopStatus where
  | pending
  | running
  | paused
  | waiting_approval
  | complete
  | error
  | stopped
deriving DecidableEq, Repr

/-- `mode` column of the `loops` table (`db.ts`). -/
inductive LoopMode where
  | auto
  | approval
deriving DecidableEq, Repr

/-- The persisted loop row, restricted to the fields the engine reads
and writes (`db.ts`, `interface Loop`). -/
structure Loop where
  status : LoopStatus
  mode : LoopMode
  current_issue : Option Nat
  current_pr : Option Nat
  iteration_current : Nat
  iteration_max : Nat
  error : Option String
deriving DecidableEq, Repr

/-! ### String scanning

JavaScript `String.includes` and the two regex matches of `startLoop`,
implemented over `List Char`. -/

/-- Does `pat` stand at the head of `l`?  (anchored match of a literal). -/
def hasLead : List Char → List Char → Bool
  | [], _ => true
  | _ :: _, [] => false
  | p :: ps, c :: cs => p == c && hasLead ps cs

/-- Does `pat` occur anywhere in `l`?  (JS `String.includes`). -/
def occursIn (pat : List Char) : List Char → Bool
  | [] => pat.isEmpty
  | c :: t => hasLead pat (c :: t) || occursIn pat t

/-- `s.includes(pat)` of JavaScript. -/
def strContains (s pat : String) : Bool := occursIn pat.data s.data

/-- Consume the literal `pat` from the head of `l`, returning the rest. -/
def chopLead : List Char → List Char → Option (List Char)
  | [], l => some l
  | _ :: _, [] => none
  | p :: ps, c :: cs => if p == c then chopLead ps cs else none

/-- Decimal value of a digit run (`parseInt(ds, 10)`); digit runs are
modelled as exact naturals. -/
def natOfDigits (l : List Char) : Nat := l.foldl (fun a c => 10 * a + (c.toNat - 48)) 0

/-- Match `[^/]+/` at the head of `l`: a nonempty run of non-slash
characters followed by a slash.  Since `[^/]+` can never consume a
slash, the greedy run is forced and no backtracking can help. -/
def segSlash (l : List Char) : Option (List Char) :=
  match l.takeWhile (fun c => !(c == '/')), l.dropWhile (fun c => !(c == '/')) with
  | [], _ => none
  | _ :: _, _ :: rest => some rest
  | _ :: _, [] => none

/-- Match `https://github.com/[^/]+/[^/]+/pull/(\d+)` anchored at the
head of `l`, returning the captured PR number. -/
def matchPrAt (l : List Char) : Option Nat := do
  let r1 ← chopLead "https://github.com/".data l
  let r2 ← segSlash r1
  let r3 ← segSlash r2
  let r4 ← chopLead "pull/".data r3
  let ds := r4.takeWhile Char.isDigit
  if ds.isEmpty then none else some (natOfDigits ds)

/-- Leftmost match of the pull-request URL pattern
(`output.match(/https:\/\/github\.com\/[^\/]+\/[^\/]+\/pull\/(\d+)/)`). -/
def findPr : List Char → Option Nat
  | [] => none
  | c :: t =>
    match matchPrAt (c :: t) with
    | some n => some n
    | none => findPr t

/-- Match `#(\d+)` anchored at the head of `l`. -/
def matchIssueAt : List Char → Option Nat
  | '#' :: t =>
    let ds := t.takeWhile Char.isDigit
    if ds.isEmpty then none else some (natOfDigits ds)
  | _ => none

/-- Leftmost match of `#(\d+)` (`output.match(/#(\d+)/)`). -/
def findIssue : List Char → Option Nat
  | [] => none
  | c :: t =>
    match matchIssueAt (c :: t) with
    | some n => some n
    | none => findIssue t

/-- First completion sentinel variant checked by `startLoop`. -/
def doneComplete : String := "<done>COMPLETE</done>"

/-- Second completion sentinel variant checked by `startLoop`. -/
def doneNoTasks : String := "<done>NO_TASKS</done>"

/-- The marker `runIteration` checks for in the leniency rule. -/
def doneMark : String := "<done>"

/-! ### Process runner (`runIteration`) -/

/-- Outcome of one spawned `droid` process: its exit code and the
concatenated stdout/stderr buffer. -/
structure ProcOutcome where
  exitCode : Int
  output : String
deriving DecidableEq, Repr

/-- JS `fullOutput.slice(-n)`: the last `n` characters (the whole
string when it is shorter). -/
def lastChars (n : Nat) (s : String) : String := String.mk (s.data.drop (s.data.length - n))

/-- The rejection message built in `runIteration`'s `close` handler. -/
def droidErrorMsg (p : ProcOutcome) : String :=
  "Droid exited with code " ++ toString p.exitCode ++ ": " ++ lastChars 500 p.output

/-- `runIteration`'s `close` handler: resolve with the buffer when the
exit code is zero or the buffer contains `<done>`; otherwise reject
with the truncated-tail message. -/
def runIterationModel (p : ProcOutcome) : Except String String :=
  if p.exitCode = 0 ∨ strContains p.output doneMark = true then Except.ok p.output
  else Except.error (droidErrorMsg p)

/-! ### Iteration driver (`startLoop`) -/

/-- Observer callbacks of `startLoop`, recorded as an event trace. -/
inductive CbEvent where
  | onStart
  | onIteration (i : Nat) (output : String)
  | onTaskComplete (issue pr : Nat)
  | onWaitingApproval (issue pr : Nat)
  | onComplete
  | onError (msg : String)
deriving DecidableEq, Repr

/-- Environment of one driver invocation: whether `ensureWorkspace`
succeeds (and the rejection text when it does not), the process
outcome of each iteration, and an optional status written to the store
by a concurrent stop/approve/skip, observed by the fresh read at the
boundary of iteration `i`. -/
structure DriveEnv where
  workspaceOk : Bool
  wsError : String
  proc : Nat → ProcOutcome
  ext : Nat → Option LoopStatus

/-- The loop row as re-read at the boundary of iteration `i`
(`db.getLoop` at the top of the `for` body), after any concurrent
external status write. -/
def boundaryState (env : DriveEnv) (i : Nat) (s : Loop) : Loop :=
  match env.ext i with
  | some st => { s with status := st }
  | none => s

/-- Result of one pass through the `for` body: halt driving (with
`early = true` for the three `return` sites, `false` for `break`), or
proceed to the next iteration. -/
inductive StepRes where
  | halt (s : Loop) (evs : List CbEvent) (early : Bool)
  | next (s : Loop) (evs : List CbEvent)
deriving Repr

/-- One pass through the body of `startLoop`'s `for` loop for
iteration `i`: the boundary status checks, `iteration_current := i`,
the process run, and output classification.  `mode` is the mode read
once at invocation start (`loop.mode`). -/
def iterStep (env : DriveEnv) (mode : LoopMode) (i : Nat) (s0 : Loop) (evs : List CbEvent) :
    StepRes :=
  let b := boundaryState env i s0
  if b.status = .stopped then
    .halt b evs false
  else if b.status = .paused ∨ b.status = .waiting_approval then
    .halt b evs false
  else
    let s := { b with iteration_current := i }
    match runIterationModel (env.proc i) with
    | .error msg =>
      .halt { s with status := .error, error := some msg } (evs ++ [.onError msg]) true
    | .ok out =>
      let evs := evs ++ [.onIteration i out]
      if strContains out doneComplete || strContains out doneNoTasks then
        .halt { s with status := .complete } (evs ++ [.onComplete]) true
      else
        match findPr out.data with
        | some pr =>
          let issue := findIssue out.data
          let s := { s with current_pr := some pr, current_issue := issue }
          if mode = .approval then
            .halt { s with status := .waiting_approval }
              (evs ++ [.onWaitingApproval (issue.getD 0) pr]) true
          else
            .next s (evs ++ [.onTaskComplete (issue.getD 0) pr])
        | none => .next s evs

/-- The `for` loop of `startLoop`, driving iterations `i, i+1, ...`
with `fuel` iterations left in the budget (`fuel = iteration_max + 1 - i`
at the top-level call).  Returns the store state, the event trace, and
whether driving ended in a `return` (as opposed to `break` or loop
exhaustion, which fall through to the final block). -/
def driveIters (env : DriveEnv) (mode : LoopMode) :
    Nat → Nat → Loop → List CbEvent → Loop × List CbEvent × Bool
  | _, 0, s, evs => (s, evs, false)
  | i, fuel + 1, s, evs =>
    match iterStep env mode i s evs with
    | .halt s' evs' early => (s', evs', early)
    | .next s' evs' => driveIters env mode (i + 1) fuel s' evs'

/-- Result of one `startLoop` invocation: the final store state, the
callback trace, and the rejection propagated to the invoker when the
function throws. -/
structure RunResult where
  state : Loop
  events : List CbEvent
  thrown : Option String
deriving DecidableEq, Repr

/-- One invocation of `startLoop loopId`: ensure the workspace (a
failure rejects before any store write), mark the loop `running`,
drive iterations `1 .. iteration_max` (bounds and mode from the
initial read), and on fall-through mark `complete` when the status is
still `running`. -/
def startLoopRun (env : DriveEnv) (s0 : Loop) : RunResult :=
  if env.workspaceOk = false then
    { state := s0, events := [], thrown := some env.wsError }
  else
    let s1 : Loop := { s0 with status := .running }
    match driveIters env s0.mode 1 s0.iteration_max s1 [.onStart] with
    | (s2, evs, early) =>
      if early then { state := s2, events := evs, thrown := none }
      else if s2.status = .running then
        { state := { s2 with status := .complete }, events := evs ++ [.onComplete],
          thrown := none }
      else { state := s2, events := evs, thrown := none }

/-! ### Stop / approve / skip -/

/-- Persisted loop row together with the live-process registry's entry
for this loop's identifier (`activeProcesses.has(loopId)`). -/
structure SysState where
  loop : Loop
  registered : Bool
deriving DecidableEq, Repr

/-- The status list `['running', 'pending', 'paused', 'waiting_approval']`
checked by `stopLoopProcess`. -/
def activeStatuses : List LoopStatus := [.running, .pending, .paused, .waiting_approval]

/-- Result of `stopLoopProcess`: the new system state, whether a
SIGTERM was sent, and the boolean return value. -/
structure StopResult where
  sys : SysState
  signaled : Bool
  result : Bool
deriving DecidableEq, Repr

/-- `stopLoopProcess`: when a process is registered, signal it, drop
the registry entry and force `stopped`; otherwise force `stopped` only
from one of the four active statuses; otherwise report nothing to do. -/
def stopLoopProcess (s : SysState) : StopResult :=
  if s.registered then
    { sys := { loop := { s.loop with status := .stopped }, registered := false },
      signaled := true, result := true }
  else if s.loop.status ∈ activeStatuses then
    { sys := { s with loop := { s.loop with status := .stopped } },
      signaled := false, result := true }
  else
    { sys := s, signaled := false, result := false }

/-- The store write shared by `approveAndContinue` and
`skipAndContinue` on success: clear the PR under review and resume. -/
def resumeUpdate (s : SysState) : SysState :=
  { s with loop :=
      { s.loop with status := .running, current_pr := none, current_issue := none } }

/-- `approveAndContinue` up to its fire-and-forget `startLoop` call
(the resumption itself is `startLoopRun`).  `mergeOk` is the boolean
result of `github.mergePR`.  The guard `if (loop.current_pr)` is JS
truthiness: a null or zero PR number skips the merge.  The returned
state is the store after the call; a thrown error leaves it untouched
because every throw happens before the store write. -/
def approveAndContinue (mergeOk : Bool) (s : SysState) : SysState × Except String Unit :=
  if s.loop.status ≠ .waiting_approval then
    (s, Except.error "Loop is not waiting for approval")
  else
    match s.loop.current_pr with
    | some pr =>
      if pr ≠ 0 ∧ mergeOk = false then
        (s, Except.error ("Failed to merge PR #" ++ toString pr))
      else (resumeUpdate s, Except.ok ())
    | none => (resumeUpdate s, Except.ok ())

/-- `skipAndContinue` up to its fire-and-forget `startLoop` call. -/
def skipAndContinue (s : SysState) : SysState × Except String Unit :=
  if s.loop.status ≠ .waiting_approval then
    (s, Except.error "Loop is not waiting for approval")
  else (resumeUpdate s, Except.ok ())

/-- A status at which the boundary check of the `for` body lets the
iteration proceed. -/
def passesBoundary (st : LoopStatus) : Prop :=
  st ≠ .stopped ∧ st ≠ .paused ∧ st ≠ .waiting_approval

instance (st : LoopStatus) : Decidable (passesBoundary st) := by
  unfold passesBoundary; infer_instance

/-! ### Helper lemmas -/

theorem hasLead_self (l : List Char) : hasLead l l = true := by
  induction l with
  | nil => rfl
  | cons c t ih => simp [hasLead, ih]

theorem occursIn_append_self (a b : List Char) : occursIn b (a ++ b) = true := by
  induction a with
  | nil =>
    cases b with
    | nil => rfl
    | cons c t => simp [occursIn, hasLead_self]
  | cons c a ih => simp [occursIn, ih]

theorem strContains_append_self (a b : String) : strContains (a ++ b) b = true := by
  cases a with
  | mk la =>
    cases b with
    | mk lb => simpa [strContains, String.append] using occursIn_append_self la lb

/-- The boundary read only depends on the concurrent-write schedule,
not on the process outcomes. -/
theorem boundaryState_proc (env : DriveEnv) (q : Nat → ProcOutcome) (i : Nat) (s : Loop) :
    boundaryState { env with proc := q } i s = boundaryState env i s := rfl

theorem iterStep_boundary_halt (env : DriveEnv) (mode : LoopMode) (i : Nat) (s : Loop)
    (evs : List CbEvent)
    (h : (boundaryState env i s).status = .stopped ∨ (boundaryState env i s).status = .paused ∨
      (boundaryState env i s).status = .waiting_approval) :
    iterStep env mode i s evs = .halt (boundaryState env i s) evs false := by
  unfold iterStep
  rcases h with h | h | h <;> simp [h]

theorem driveIters_boundary_halt (env : DriveEnv) (mode : LoopMode) (i fuel : Nat) (s : Loop)
    (evs : List CbEvent)
    (h : (boundaryState env i s).status = .stopped ∨ (boundaryState env i s).status = .paused ∨
      (boundaryState env i s).status = .waiting_approval) :
    driveIters env mode i (fuel + 1) s evs = (boundaryState env i s, evs, false) := by
  simp [driveIters, iterStep_boundary_halt env mode i s evs h]

theorem iterStep_fail (env : DriveEnv) (mode : LoopMode) (i : Nat) (s : Loop)
    (evs : List CbEvent) (msg : String)
    (hb : passesBoundary (boundaryState env i s).status)
    (hrun : runIterationModel (env.proc i) = .error msg) :
    iterStep env mode i s evs =
      .halt { boundaryState env i s with iteration_current := i, status := .error, error := some msg }
        (evs ++ [.onError msg]) true := by
  obtain ⟨h1, h2, h3⟩ := hb
  unfold iterStep
  simp [h1, h2, h3, hrun]

theorem iterStep_sentinel (env : DriveEnv) (mode : LoopMode) (i : Nat) (s : Loop)
    (evs : List CbEvent)
    (hb : passesBoundary (boundaryState env i s).status)
    (hrun : runIterationModel (env.proc i) = .ok (env.proc i).output)
    (hs : (strContains (env.proc i).output doneComplete ||
           strContains (env.proc i).output doneNoTasks) = true) :
    iterStep env mode i s evs =
      .halt { boundaryState env i s with iteration_current := i, status := .complete }
        (evs ++ [.onIteration i (env.proc i).output, .onComplete]) true := by
  obtain ⟨h1, h2, h3⟩ := hb
  unfold iterStep
  simp [h1, h2, h3, hrun, hs]

theorem iterStep_pr (env : DriveEnv) (mode : LoopMode) (i : Nat) (s : Loop)
    (evs : List CbEvent) (pr : Nat)
    (hb : passesBoundary (boundaryState env i s).status)
    (hrun : runIterationModel (env.proc i) = .ok (env.proc i).output)
    (hns : (strContains (env.proc i).output doneComplete ||
            strContains (env.proc i).output doneNoTasks) = false)
    (hpr : findPr (env.proc i).output.data = some pr) :
    iterStep env mode i s evs =
      (let issue := findIssue (env.proc i).output.data
       let s' : Loop := { boundaryState env i s with iteration_current := i, current_pr := some pr, current_issue := issue }
       if mode = .approval then
         .halt { s' with status := .waiting_approval }
           (evs ++ [.onIteration i (env.proc i).output,
                    .onWaitingApproval (issue.getD 0) pr]) true
       else
         .next s' (evs ++ [.onIteration i (env.proc i).output,
                           .onTaskComplete (issue.getD 0) pr])) := by
  obtain ⟨h1, h2, h3⟩ := hb
  unfold iterStep
  simp [h1, h2, h3, hrun, hns, hpr]

theorem boundaryState_iteration_current (env : DriveEnv) (i : Nat) (s : Loop) :
    (boundaryState env i s).iteration_current = s.iteration_current := by
  unfold boundaryState; cases env.ext i <;> rfl

theorem boundaryState_current_pr (env : DriveEnv) (i : Nat) (s : Loop) :
    (boundaryState env i s).current_pr = s.current_pr := by
  unfold boundaryState; cases env.ext i <;> rfl

theorem boundaryState_current_issue (env : DriveEnv) (i : Nat) (s : Loop) :
    (boundaryState env i s).current_issue = s.current_issue := by
  unfold boundaryState; cases env.ext i <;> rfl

/-! ### Claim theorems -/

/-- **C3**: when an iteration's output contains a pull-request URL
with PR id `pr` (and no completion sentinel), the driver persists
`current_pr = pr` and `current_issue` from the leftmost `#digits`
token (`none` when absent); in approval mode it transitions to
`waiting_approval`, emits `onWaitingApproval` and returns without
driving another iteration (the result does not depend on the remaining
fuel); in auto mode it emits `onTaskComplete` and proceeds to
iteration `i + 1`. -/
theorem pr_detection_step (env : DriveEnv) (mode : LoopMode) (i fuel : Nat) (s : Loop)
    (evs : List CbEvent) (pr : Nat)
    (hb : passesBoundary (boundaryState env i s).status)
    (hrun : runIterationModel (env.proc i) = .ok (env.proc i).output)
    (hns : (strContains (env.proc i).output doneComplete ||
            strContains (env.proc i).output doneNoTasks) = false)
    (hpr : findPr (env.proc i).output.data = some pr) :
    (mode = .approval →
      driveIters env mode i (fuel + 1) s evs =
        ({ boundaryState env i s with iteration_current := i, current_pr := some pr, current_issue := findIssue (env.proc i).output.data, status := .waiting_approval },
         evs ++ [.onIteration i (env.proc i).output,
                 .onWaitingApproval ((findIssue (env.proc i).output.data).getD 0) pr],
         true)) ∧
    (mode = .auto →
      driveIters env mode i (fuel + 1) s evs =
        driveIters env mode (i + 1) fuel
          { boundaryState env i s with iteration_current := i, current_pr := some pr, current_issue := findIssue (env.proc i).output.data }
          (evs ++ [.onIteration i (env.proc i).output,
                   .onTaskComplete ((findIssue (env.proc i).output.data).getD 0) pr])) := by
  have hstep := iterStep_pr env mode i s evs pr hb hrun hns hpr
  constructor
  · intro hm
    subst hm
    simp only [driveIters]
    rw [hstep]
    simp
  · intro hm
    subst hm
    simp only [driveIters]
    rw [hstep]
    simp

/-- **C4**: an iteration whose output contains either completion
sentinel variant marks the loop `complete`, emits `onComplete`, and
stops driving immediately (`early = true`), whatever the remaining
iteration budget `fuel` is. -/
theorem sentinel_completes_loop (env : DriveEnv) (mode : LoopMode) (i fuel : Nat) (s : Loop)
    (evs : List CbEvent)
    (hb : passesBoundary (boundaryState env i s).status)
    (hrun : runIterationModel (env.proc i) = .ok (env.proc i).output)
    (hs : (strContains (env.proc i).output doneComplete ||
           strContains (env.proc i).output doneNoTasks) = true) :
    driveIters env mode i (fuel + 1) s evs =
      ({ boundaryState env i s with iteration_current := i, status := .complete },
       evs ++ [.onIteration i (env.proc i).output, .onComplete], true) := by
  have hstep := iterStep_sentinel env mode i s evs hb hrun hs
  simp only [driveIters]
  rw [hstep]

/-- **C10**: when an iteration's output contains both a completion
sentinel and a pull-request URL, the completion branch wins: the loop
is marked `complete`, the driver returns early, `current_pr` and
`current_issue` keep their previous values, and no `waiting_approval`
transition occurs. -/
theorem sentinel_precedes_pr (env : DriveEnv) (mode : LoopMode) (i fuel : Nat) (s : Loop)
    (evs : List CbEvent) (pr : Nat)
    (hb : passesBoundary (boundaryState env i s).status)
    (hrun : runIterationModel (env.proc i) = .ok (env.proc i).output)
    (hs : (strContains (env.proc i).output doneComplete ||
           strContains (env.proc i).output doneNoTasks) = true)
    (hpr : findPr (env.proc i).output.data = some pr) :
    driveIters env mode i (fuel + 1) s evs =
      ({ boundaryState env i s with iteration_current := i, status := .complete },
       evs ++ [.onIteration i (env.proc i).output, .onComplete], true) ∧
    (driveIters env mode i (fuel + 1) s evs).1.current_pr = s.current_pr ∧
    (driveIters env mode i (fuel + 1) s evs).1.current_issue = s.current_issue ∧
    (driveIters env mode i (fuel + 1) s evs).1.status ≠ .waiting_approval := by
  have hstep := iterStep_sentinel env mode i s evs hb hrun hs
  have heq : driveIters env mode i (fuel + 1) s evs =
      ({ boundaryState env i s with iteration_current := i, status := .complete },
       evs ++ [.onIteration i (env.proc i).output, .onComplete], true) := by
    simp only [driveIters]
    rw [hstep]
  refine ⟨heq, ?_, ?_, ?_⟩
  · rw [heq]; exact boundaryState_current_pr env i s
  · rw [heq]; exact boundaryState_current_issue env i s
  · rw [heq]; simp

/-- **C5**: at an iteration boundary the driver re-reads the persisted
status; when that fresh read is `stopped`, `paused` or
`waiting_approval`, driving stops with the store exactly as read —
no error is recorded, `iteration_current` is not incremented, and the
external process for that iteration is never run (the result is the
same under any process-outcome schedule). -/
theorem boundary_check_suspends (env : DriveEnv) (mode : LoopMode) (i fuel : Nat)
    (s : Loop) (evs : List CbEvent)
    (h : (boundaryState env i s).status = .stopped ∨ (boundaryState env i s).status = .paused ∨
      (boundaryState env i s).status = .waiting_approval) :
    driveIters env mode i (fuel + 1) s evs = (boundaryState env i s, evs, false) ∧
    (boundaryState env i s).iteration_current = s.iteration_current ∧
    (boundaryState env i s).status ≠ .error ∧
    (∀ q : Nat → ProcOutcome,
      driveIters { env with proc := q } mode i (fuel + 1) s evs =
        driveIters env mode i (fuel + 1) s evs) := by
  refine ⟨driveIters_boundary_halt env mode i fuel s evs h, boundaryState_iteration_current env i s, ?_, ?_⟩
  · rcases h with h | h | h <;> simp [h]
  · intro q
    rw [driveIters_boundary_halt env mode i fuel s evs h,
        driveIters_boundary_halt { env with proc := q } mode i fuel s evs h]
    rfl

/-- **C8** (amended): `runIteration` resolves exactly when the exit
code is zero or the buffer contains the marker `<done>` (the shared
lead of both sentinel variants — not necessarily a full sentinel); a
run failing that test rejects and the driver marks the loop `error`
with the rejection message, which contains the last 500 characters of
the captured output. -/
theorem process_success_rule (p : ProcOutcome) (env : DriveEnv) (mode : LoopMode)
    (i fuel : Nat) (s : Loop) (evs : List CbEvent)
    (hb : passesBoundary (boundaryState env i s).status) (hp : env.proc i = p) :
    (runIterationModel p = .ok p.output ↔ (p.exitCode = 0 ∨ strContains p.output doneMark = true)) ∧
    strContains (droidErrorMsg p) (lastChars 500 p.output) = true ∧
    (¬ (p.exitCode = 0 ∨ strContains p.output doneMark = true) →
      driveIters env mode i (fuel + 1) s evs =
        ({ boundaryState env i s with iteration_current := i, status := .error, error := some (droidErrorMsg p) },
         evs ++ [.onError (droidErrorMsg p)], true)) := by
  refine ⟨?_, strContains_append_self _ _, ?_⟩
  · by_cases hc : p.exitCode = 0 ∨ strContains p.output doneMark = true
    · simp [runIterationModel, hc]
    · simp [runIterationModel, hc]
  · intro hc
    have hrun : runIterationModel (env.proc i) = .error (droidErrorMsg p) := by
      rw [hp]
      simp [runIterationModel, hc]
    have hstep := iterStep_fail env mode i s evs (droidErrorMsg p) hb hrun
    simp only [driveIters]
    rw [hstep]

/-- **C1** (amended): a driver invocation never resumes from the
persisted `iteration_current`: whenever the first boundary check lets
iteration 1 run (workspace set up, no concurrent status write at the
first boundary, a positive budget), the whole run is independent of
the persisted counter — the `for` loop restarts at 1 and overwrites
`iteration_current` from 1 upward. -/
theorem resume_ignores_iteration_current (env : DriveEnv) (s : Loop) (v w : Nat)
    (hw : env.workspaceOk = true) (hext : env.ext 1 = none) (hmax : 1 ≤ s.iteration_max) :
    startLoopRun env { s with iteration_current := v } =
      startLoopRun env { s with iteration_current := w } := by
  obtain ⟨k, hk⟩ : ∃ k, s.iteration_max = k + 1 := ⟨s.iteration_max - 1, by omega⟩
  have hstep : ∀ u : Nat,
      iterStep env s.mode 1 { s with iteration_current := u, status := .running }
        [CbEvent.onStart] =
      iterStep env s.mode 1 { s with iteration_current := 0, status := .running }
        [CbEvent.onStart] := by
    intro u
    unfold iterStep boundaryState
    simp [hext]
  have hdrive : ∀ u : Nat,
      driveIters env s.mode 1 (k + 1) { s with iteration_current := u, status := .running }
        [CbEvent.onStart] =
      driveIters env s.mode 1 (k + 1) { s with iteration_current := 0, status := .running }
        [CbEvent.onStart] := by
    intro u
    simp only [driveIters]
    rw [hstep u]
  simp only [hk] at hdrive
  unfold startLoopRun
  simp [hw, hk]
  rw [hdrive v, hdrive w]

/-- **C6**: `approveAndContinue` and `skipAndContinue` called in any
status other than `waiting_approval` fail with the invalid-state error
and leave the store untouched; from `waiting_approval`, a failed merge
of a recorded PR makes approve fail with the merge error and leave the
store untouched (so the loop stays `waiting_approval` and the call can
be retried), while on success both operations apply exactly the write
that clears `current_pr`/`current_issue` and sets status `running`. -/
theorem approve_skip_contract (s : SysState) (mergeOk : Bool) :
    (s.loop.status ≠ .waiting_approval →
      approveAndContinue mergeOk s = (s, Except.error "Loop is not waiting for approval") ∧
      skipAndContinue s = (s, Except.error "Loop is not waiting for approval")) ∧
    (s.loop.status = .waiting_approval →
      ((resumeUpdate s).loop.current_pr = none ∧ (resumeUpdate s).loop.current_issue = none ∧
        (resumeUpdate s).loop.status = .running) ∧
      skipAndContinue s = (resumeUpdate s, Except.ok ()) ∧
      (mergeOk = true → approveAndContinue mergeOk s = (resumeUpdate s, Except.ok ())) ∧
      (∀ pr, s.loop.current_pr = some pr → pr ≠ 0 → mergeOk = false →
        approveAndContinue mergeOk s =
          (s, Except.error ("Failed to merge PR #" ++ toString pr)))) := by
  constructor
  · intro hne
    exact ⟨by simp [approveAndContinue, hne], by simp [skipAndContinue, hne]⟩
  · intro heq
    refine ⟨⟨rfl, rfl, rfl⟩, by simp [skipAndContinue, heq], ?_, ?_⟩
    · intro hm
      subst hm
      unfold approveAndContinue
      cases hc : s.loop.current_pr with
      | none => simp [heq]
      | some pr => simp [heq]
    · intro pr hc hpr hm
      subst hm
      unfold approveAndContinue
      simp [heq, hc, hpr]

/-- **C9**: `stopLoopProcess` always leaves the registry without an
entry for the loop; when a process was registered it is signaled; the
call reports `true` exactly when the loop was in one of the four
active statuses (using the live-registry invariant that a registered
process implies an active status, which holds under the
single-active-invocation convention: the driver deletes the registry
entry before any terminal status is written); a `true` report comes
with the unique `stopped` write, a `false` report with no mutation at
all; and a second consecutive stop always reports `false` and mutates
nothing — the function is total, so it never faults. -/
theorem stop_contract (s : SysState)
    (hinv : s.registered = true → s.loop.status ∈ activeStatuses) :
    (stopLoopProcess s).sys.registered = false ∧
    (s.registered = true → (stopLoopProcess s).signaled = true) ∧
    ((stopLoopProcess s).result = true ↔ s.loop.status ∈ activeStatuses) ∧
    ((stopLoopProcess s).result = true →
      (stopLoopProcess s).sys = { loop := { s.loop with status := .stopped }, registered := false }) ∧
    ((stopLoopProcess s).result = false → (stopLoopProcess s).sys = s ∧ s.registered = false) ∧
    stopLoopProcess (stopLoopProcess s).sys =
      { sys := (stopLoopProcess s).sys, signaled := false, result := false } := by
  by_cases hreg : s.registered = true
  · have hact := hinv hreg
    simp only [activeStatuses, List.mem_cons, List.not_mem_nil, or_false] at hact
    unfold stopLoopProcess
    simp [hreg, hact, activeStatuses]
  · have hreg' : s.registered = false := by
      cases h : s.registered
      · rfl
      · exact absurd h hreg
    by_cases hact : s.loop.status ∈ activeStatuses
    · simp only [activeStatuses, List.mem_cons, List.not_mem_nil, or_false] at hact
      unfold stopLoopProcess
      simp [hreg', hact, activeStatuses]
    · simp only [activeStatuses, List.mem_cons, List.not_mem_nil, or_false] at hact
      unfold stopLoopProcess
      simp [hreg', hact, activeStatuses]

/-- **C2** (amended): `stop`, `approve` and `skip` never mutate a loop
whose status is terminal (`complete`, `error` or `stopped`, with no
process registered for it): stop reports nothing to do, approve and
skip fail with the invalid-state error, and the system state is
returned unchanged.  A driver invocation, however, is not guarded:
`startLoop` on a terminal loop re-marks it `running` and drives again
(see the counterexample). -/
theorem terminal_untouched_by_stop_approve_skip (s : SysState) (mergeOk : Bool)
    (ht : s.loop.status = .complete ∨ s.loop.status = .error ∨ s.loop.status = .stopped)
    (hr : s.registered = false) :
    stopLoopProcess s = { sys := s, signaled := false, result := false } ∧
    approveAndContinue mergeOk s = (s, Except.error "Loop is not waiting for approval") ∧
    skipAndContinue s = (s, Except.error "Loop is not waiting for approval") := by
  have hne : s.loop.status ≠ .waiting_approval := by
    rcases ht with h | h | h <;> simp [h]
  refine ⟨?_, by simp [approveAndContinue, hne], by simp [skipAndContinue, hne]⟩
  unfold stopLoopProcess
  rcases ht with h | h | h <;> simp [hr, h, activeStatuses]

/-- **C7** (amended): a workspace-setup failure makes the `startLoop`
invocation reject before any store write: the loop keeps exactly the
state it had (in particular its status is not set to `error`), no
callback fires, and the failure is only propagated to the invoker. -/
theorem workspace_failure_rejects_unchanged (env : DriveEnv) (s : Loop)
    (hw : env.workspaceOk = false) :
    startLoopRun env s = { state := s, events := [], thrown := some env.wsError } := by
  simp [startLoopRun, hw]

/-! ### Concrete fixtures, counterexamples and witnesses -/

/-- Resumption environment: workspace OK, every iteration's process
exits 0 and emits a PR URL for PR 42 plus the token `#7`. -/
def envC1 : DriveEnv :=
  { workspaceOk := true, wsError := "",
    proc := fun _ => { exitCode := 0, output := "https://github.com/acme/app/pull/42 #7" },
    ext := fun _ => none }

/-- The store right after `skipAndContinue` resumed an approval-mode
loop that suspended at iteration 1 of 3: status `running`,
`iteration_current = 1` persisted. -/
def loopC1 : Loop :=
  { status := .running, mode := .approval, current_issue := none, current_pr := none,
    iteration_current := 1, iteration_max := 3, error := none }

/-- **C1** counterexample: the resumed invocation suspends again with
`iteration_current = 1` — the `for` loop restarted at 1 and re-drove
iteration 1, where the claim demands that it drive iteration
`iteration_current + 1 = 2`. -/
theorem resume_restarts_counterexample :
    loopC1.iteration_current = 1 ∧
    (startLoopRun envC1 loopC1).state.status = .waiting_approval ∧
    (startLoopRun envC1 loopC1).state.iteration_current = 1 ∧
    ¬ (startLoopRun envC1 loopC1).state.iteration_current = 2 := by decide

/-- Witness: the amended C1 theorem at a concrete input — runs from
persisted counters 5 and 0 coincide. -/
theorem resume_ignores_iteration_current_witness :
    startLoopRun envC1 { loopC1 with iteration_current := 5 } =
      startLoopRun envC1 { loopC1 with iteration_current := 0 } :=
  resume_ignores_iteration_current envC1 loopC1 5 0 rfl rfl (by decide)

/-- Same environment as `envC1`, for the terminal-loop counterexample. -/
def envC2 : DriveEnv :=
  { workspaceOk := true, wsError := "",
    proc := fun _ => { exitCode := 0, output := "https://github.com/acme/app/pull/42 #7" },
    ext := fun _ => none }

/-- A loop already in the terminal status `complete`. -/
def loopC2 : Loop :=
  { status := .complete, mode := .approval, current_issue := none, current_pr := none,
    iteration_current := 0, iteration_max := 3, error := none }

/-- **C2** counterexample: `startLoop` has no terminal-status guard —
invoked on a `complete` loop it re-marks it `running`, drives an
iteration, and here even leaves it `waiting_approval`: a terminal loop
was mutated by a driver invocation. -/
theorem terminal_loop_mutated_by_driver :
    loopC2.status = .complete ∧
    (startLoopRun envC2 loopC2).state.status = .waiting_approval ∧
    (startLoopRun envC2 loopC2).state.iteration_current = 1 := by decide

/-- A terminal system state with no registered process. -/
def sysC2 : SysState := { loop := loopC2, registered := false }

/-- Witness: the amended C2 theorem at a concrete terminal state. -/
theorem terminal_untouched_by_stop_approve_skip_witness :
    stopLoopProcess sysC2 = { sys := sysC2, signaled := false, result := false } ∧
    approveAndContinue false sysC2 = (sysC2, Except.error "Loop is not waiting for approval") ∧
    skipAndContinue sysC2 = (sysC2, Except.error "Loop is not waiting for approval") :=
  terminal_untouched_by_stop_approve_skip sysC2 false (Or.inl rfl) rfl

/-- Scenario A/B environment: every iteration's process exits 0 with a
PR URL for PR 42 and the token `#7`. -/
def envC3 : DriveEnv :=
  { workspaceOk := true, wsError := "",
    proc := fun _ => { exitCode := 0, output := "https://github.com/acme/app/pull/42 #7" },
    ext := fun _ => none }

/-- A freshly started approval-mode loop with a budget of 3. -/
def loopC3 : Loop :=
  { status := .running, mode := .approval, current_issue := none, current_pr := none,
    iteration_current := 0, iteration_max := 3, error := none }

/-- Witness: Scenario B — in approval mode iteration 1 persists
`current_pr = 42`, `current_issue = 7`, suspends in `waiting_approval`
and returns without driving iteration 2. -/
theorem pr_detection_step_witness :
    driveIters envC3 .approval 1 (2 + 1) loopC3 [] =
      ({ loopC3 with iteration_current := 1, current_pr := some 42, current_issue := some 7, status := .waiting_approval },
       [CbEvent.onIteration 1 "https://github.com/acme/app/pull/42 #7",
        CbEvent.onWaitingApproval 7 42], true) :=
  (pr_detection_step envC3 .approval 1 2 loopC3 [] 42 (by decide) rfl (by decide) (by decide)).1 rfl

/-- Scenario D environment: the process reports the `NO_TASKS`
sentinel. -/
def envC4 : DriveEnv :=
  { workspaceOk := true, wsError := "",
    proc := fun _ => { exitCode := 0, output := "report <done>NO_TASKS</done>" },
    ext := fun _ => none }

/-- A running auto-mode loop with 5 iterations of budget left. -/
def loopC4 : Loop :=
  { status := .running, mode := .auto, current_issue := none, current_pr := none,
    iteration_current := 0, iteration_max := 5, error := none }

/-- Witness: Scenario D — a sentinel at iteration 1 completes the loop
immediately although 4 iterations of budget remain. -/
theorem sentinel_completes_loop_witness :
    driveIters envC4 .auto 1 (4 + 1) loopC4 [] =
      ({ loopC4 with iteration_current := 1, status := .complete },
       [CbEvent.onIteration 1 "report <done>NO_TASKS</done>", CbEvent.onComplete], true) :=
  sentinel_completes_loop envC4 .auto 1 4 loopC4 [] (by decide) rfl (by decide)

/-- Environment with a concurrent `stop` landing before the first
boundary read. -/
def envC5 : DriveEnv :=
  { workspaceOk := true, wsError := "",
    proc := fun _ => { exitCode := 0, output := "untouched" },
    ext := fun i => if i = 1 then some .stopped else none }

/-- A running loop about to hit the externally stopped boundary. -/
def loopC5 : Loop :=
  { status := .running, mode := .auto, current_issue := none, current_pr := none,
    iteration_current := 4, iteration_max := 9, error := none }

/-- Witness: the boundary read observes `stopped` and the driver
returns the store as read, with `iteration_current` untouched. -/
theorem boundary_check_suspends_witness :
    driveIters envC5 .auto 1 (8 + 1) loopC5 [] = ({ loopC5 with status := .stopped }, [], false) ∧
    ({ loopC5 with status := .stopped } : Loop).iteration_current = 4 :=
  ⟨(boundary_check_suspends envC5 .auto 1 8 loopC5 [] (by decide)).1, rfl⟩

/-- A system state suspended in `waiting_approval` on PR 42. -/
def sysC6 : SysState :=
  { loop := { status := .waiting_approval, mode := .approval, current_issue := some 7,
              current_pr := some 42, iteration_current := 1, iteration_max := 3, error := none },
    registered := false }

/-- Witness: skip succeeds, approve succeeds when the merge does, and
a failed merge leaves the state untouched with the merge error. -/
theorem approve_skip_contract_witness :
    skipAndContinue sysC6 = (resumeUpdate sysC6, Except.ok ()) ∧
    approveAndContinue true sysC6 = (resumeUpdate sysC6, Except.ok ()) ∧
    approveAndContinue false sysC6 = (sysC6, Except.error ("Failed to merge PR #" ++ toString 42)) := by
  have h := (approve_skip_contract sysC6 true).2 rfl
  have h' := (approve_skip_contract sysC6 false).2 rfl
  exact ⟨h.2.1, h.2.2.1 rfl, h'.2.2.2 42 rfl (by decide) rfl⟩

/-- Workspace-failure environment (`git clone` rejected). -/
def envC7 : DriveEnv :=
  { workspaceOk := false,
    wsError := "Command failed: git clone https://github.com/acme/app.git workspaces/acme-app",
    proc := fun _ => { exitCode := 0, output := "" },
    ext := fun _ => none }

/-- A pending loop whose first invocation hits the workspace failure. -/
def loopC7 : Loop :=
  { status := .pending, mode := .auto, current_issue := none, current_pr := none,
    iteration_current := 0, iteration_max := 10, error := none }

/-- **C7** counterexample: `ensureWorkspace` is awaited outside the
try/catch of the iteration loop, so its failure propagates out of
`startLoop` before any store write: the loop stays `pending`, records
no error message, and is never marked `error`. -/
theorem workspace_failure_not_error_cx :
    (startLoopRun envC7 loopC7).state.status = .pending ∧
    (startLoopRun envC7 loopC7).state.status ≠ .error ∧
    (startLoopRun envC7 loopC7).state.error = none ∧
    (startLoopRun envC7 loopC7).thrown.isSome = true := by decide

/-- Witness: the amended C7 theorem at the concrete failing input. -/
theorem workspace_failure_rejects_unchanged_witness :
    startLoopRun envC7 loopC7 = { state := loopC7, events := [], thrown := some envC7.wsError } :=
  workspace_failure_rejects_unchanged envC7 loopC7 rfl

/-- Failing-process environment: exit code 1, no marker in the output. -/
def envC8 : DriveEnv :=
  { workspaceOk := true, wsError := "",
    proc := fun _ => { exitCode := 1, output := "boom" },
    ext := fun _ => none }

/-- A running loop whose only iteration fails. -/
def loopC8 : Loop :=
  { status := .running, mode := .auto, current_issue := none, current_pr := none,
    iteration_current := 0, iteration_max := 1, error := none }

/-- **C8** counterexample: an output containing the marker `<done>`
but neither completion sentinel still makes a nonzero-exit run
resolve, where the claim ("success iff exit 0 or a completion
sentinel") demands a rejection. -/
theorem done_mark_leniency_cx :
    runIterationModel { exitCode := 1, output := "<done>" } = Except.ok "<done>" ∧
    strContains "<done>" doneComplete = false ∧
    strContains "<done>" doneNoTasks = false ∧
    (1 : Int) ≠ 0 :=
  ⟨rfl, by decide, by decide, by decide⟩

/-- Witness: the amended C8 theorem at Scenario E — exit 1 without the
marker rejects and the driver records `error` with the truncated-tail
message. -/
theorem process_success_rule_witness :
    (runIterationModel { exitCode := 1, output := "boom" } = .ok "boom" ↔
      ((1 : Int) = 0 ∨ strContains "boom" doneMark = true)) ∧
    strContains (droidErrorMsg { exitCode := 1, output := "boom" }) (lastChars 500 "boom") = true ∧
    driveIters envC8 .auto 1 (0 + 1) loopC8 [] =
      ({ loopC8 with iteration_current := 1, status := .error, error := some (droidErrorMsg { exitCode := 1, output := "boom" }) },
       [CbEvent.onError (droidErrorMsg { exitCode := 1, output := "boom" })], true) := by
  have h := process_success_rule { exitCode := 1, output := "boom" } envC8 .auto 1 0 loopC8 []
    (by decide) rfl
  exact ⟨h.1, h.2.1, h.2.2 (by decide)⟩

/-- Scenario F system state: a running loop with a registered live
process. -/
def sysC9 : SysState :=
  { loop := { status := .running, mode := .auto, current_issue := none, current_pr := none,
              iteration_current := 2, iteration_max := 5, error := none },
    registered := true }

/-- Witness: stop on a registered running loop signals, unregisters,
forces `stopped`, and a second stop reports nothing to do. -/
theorem stop_contract_witness :
    (stopLoopProcess sysC9).sys.registered = false ∧
    (stopLoopProcess sysC9).signaled = true ∧
    (stopLoopProcess sysC9).result = true ∧
    stopLoopProcess (stopLoopProcess sysC9).sys =
      { sys := (stopLoopProcess sysC9).sys, signaled := false, result := false } := by
  have h := stop_contract sysC9 (by decide)
  exact ⟨h.1, h.2.1 rfl, h.2.2.1.mpr (by decide), h.2.2.2.2.2⟩

/-- Environment whose process output contains both a completion
sentinel and a PR URL. -/
def envC10 : DriveEnv :=
  { workspaceOk := true, wsError := "",
    proc := fun _ =>
      { exitCode := 0, output := "<done>COMPLETE</done> https://github.com/acme/app/pull/9 #3" },
    ext := fun _ => none }

/-- A running approval-mode loop with a PR already on record. -/
def loopC10 : Loop :=
  { status := .running, mode := .approval, current_issue := some 1, current_pr := some 8,
    iteration_current := 0, iteration_max := 4, error := none }

/-- Witness: with both markers present the loop completes and the
previously recorded `current_pr`/`current_issue` are untouched. -/
theorem sentinel_precedes_pr_witness :
    driveIters envC10 .approval 1 (3 + 1) loopC10 [] =
      ({ loopC10 with iteration_current := 1, status := .complete },
       [CbEvent.onIteration 1 "<done>COMPLETE</done> https://github.com/acme/app/pull/9 #3",
        CbEvent.onComplete], true) ∧
    (driveIters envC10 .approval 1 (3 + 1) loopC10 []).1.current_pr = some 8 ∧
    (driveIters envC10 .approval 1 (3 + 1) loopC10 []).1.current_issue = some 1 := by
  have h := sentinel_precedes_pr envC10 .approval 1 3 loopC10 [] 9 (by decide) rfl (by decide)
    (by decide)
  exact ⟨h.1, h.2.1, h.2.2.1⟩

end LoopSlack
